import Mathlib

/-!
Verification of the Report Resolution & Status Lifecycle Engine of the
CrowdCare citizen issue-reporting application.

The Python backend is shallowly embedded: database rows become Lean
structures, the SQLAlchemy session becomes explicit state passing with a
committed/pending distinction where the source commits mid-flow, Python
floats become real numbers (`float('inf')` becomes `⊤ : EReal`), raised
exceptions become `Except` errors, and external collaborators (EXIF
extraction, image storage, the face-verification gate, the database query
feeding the duplicate scan) become explicit parameters, mirroring the
narrow interfaces through which the source consumes them.

Sources embedded:
- `backend/services/status_service.py`   (StatusService)
- `backend/services/resolution_service.py` (ResolutionService)
- `backend/services/report_service.py`   (create_report)
- `backend/main.py`                      (duplicate scan in create_issue_report,
                                          delete_citizen_report)
-/

namespace CrowdCare

/-- Embeds `StatusService.valid_statuses` (status_service.py line 18). -/
def valid_statuses : List String := ["reported", "acknowledged", "in_progress", "resolved"]

/-- The five-value status domain documented on the `Report.status`
model field (models.py line 51:
`status: str = "reported"  # reported, acknowledged, in_progress, resolved, deleted`). -/
def model_status_domain : List String :=
  ["reported", "acknowledged", "in_progress", "resolved", "deleted"]

/-- One row of the `ReportStatusHistory` table, as written by
`StatusService` (fields `report_id` is implicit: the embedding tracks the
single report the services operate on). `changed_at` is an abstract clock
value supplied by the caller (the source uses `func.now()`). -/
structure HistRow where
  status : String
  changed_by : String
  changed_at : Nat
  notes : Option String
  deriving Repr, DecidableEq

/-- One entry of the denormalised `Report.status_history` JSON field,
as appended by `StatusService._update_status_history_json`. -/
structure HistJson where
  status : String
  changed_by : String
  changed_at : Nat
  notes : Option String
  deriving Repr, DecidableEq

/-- The structured `resolution_coordinates` blob persisted by
`ResolutionService.resolve_report` (resolution_service.py lines 190-195). -/
structure ResolutionCoordinates where
  latitude : ℝ
  longitude : ℝ
  distance_from_original_meters : EReal
  coordinate_source : String

/-- The `Report` row (the fields the embedded services read or write). -/
structure Report where
  id : Nat
  title : String
  category : String
  latitude : ℝ
  longitude : ℝ
  urgency_score : ℝ
  urgency_label : String
  status : String
  reporter_id : String
  admin_notes : Option String
  status_history : List HistJson
  is_deleted : Bool
  deletion_reason : Option String
  deleted_at : Option Nat
  resolved_by : Option String
  resolved_at : Option Nat
  resolution_image_url : Option String
  resolution_coordinates : Option ResolutionCoordinates
  reported_at : Nat
  acknowledged_at : Option Nat
  in_progress_at : Option Nat

/-- One row of the `AdminVerification` table. -/
structure VerifRow where
  admin_id : String
  verification_image_url : String
  deriving Repr, DecidableEq

/-- The slice of database state the embedded services touch: the single
`Report` row addressed by the request (`none` when the id matches no row),
its `ReportStatusHistory` rows and `AdminVerification` rows. -/
structure DB where
  report : Option Report
  histRows : List HistRow
  verifications : List VerifRow

/-- Typed rendering of the errors `StatusService.update_report_status`
raises as `ValueError`s, named after the spec's taxonomy:
- `invalidStatus`: "Invalid status: ..." (line 38)
- `notFound`: "Report ... not found" (line 43)
- `lockedAfterResolution`: "Report is resolved and cannot be changed ..." (line 56)
- `skippedStage`: "Cannot skip status stages ..." (line 65)
- `resolutionRequiresEvidence`: "Resolution requires evidence upload ..." (line 76) -/
inductive StatusError where
  | invalidStatus
  | notFound
  | lockedAfterResolution
  | skippedStage
  | resolutionRequiresEvidence
  deriving Repr, DecidableEq

/-- Successful outcomes of `StatusService.update_report_status`:
`noop` is the "Status is already X" early return (lines 46-52), `updated`
the "Status updated from old to new" return (lines 113-122). -/
inductive UpdateResult where
  | noop (status : String)
  | updated (oldStatus newStatus : String)
  deriving Repr, DecidableEq

/-- The stage-skip validation of `StatusService.update_report_status`
(status_service.py lines 58-71): both statuses are looked up in
`valid_statuses`; a target more than one stage ahead raises
"Cannot skip status stages"; a status missing from the list raises
`list.index`'s "not in list" `ValueError`, which the handler catches and
turns into "allowing transition". -/
def stageSkipCheck (cur new : String) : Except StatusError Unit :=
  match List.indexOf? cur valid_statuses, List.indexOf? new valid_statuses with
  | some i, some j => if i + 1 < j then .error .skippedStage else .ok ()
  | _, _ => .ok ()

/-- Embeds `StatusService.update_report_status` (status_service.py lines 20-127).
On any raised error the source rolls the session back (line 125), so the
returned database equals the input database; on success the single commit
at line 107 publishes the mutated report plus one new history row. -/
def update_report_status (db : DB) (new_status changed_by : String)
    (notes : Option String) (now : Nat) : DB × Except StatusError UpdateResult :=
  if new_status ∉ valid_statuses then (db, .error .invalidStatus)
  else
    match db.report with
    | none => (db, .error .notFound)
    | some report =>
      if report.status = new_status then (db, .ok (.noop new_status))
      else if report.status = "resolved" ∧ new_status ≠ "resolved" then
        (db, .error .lockedAfterResolution)
      else
        match stageSkipCheck report.status new_status with
        | .error e => (db, .error e)
        | .ok () =>
          if new_status = "resolved" ∧ report.status ≠ "resolved" then
            (db, .error .resolutionRequiresEvidence)
          else
            let r1 : Report :=
              { report with
                status := new_status
                acknowledged_at :=
                  if new_status = "acknowledged" then some now else report.acknowledged_at
                in_progress_at :=
                  if new_status = "in_progress" then some now else report.in_progress_at
                resolved_at :=
                  if new_status = "resolved" then some now else report.resolved_at
                status_history :=
                  report.status_history ++ [⟨new_status, changed_by, now, notes⟩] }
            ({ db with
                report := some r1
                histRows := db.histRows ++ [⟨new_status, changed_by, now, notes⟩] },
             .ok (.updated report.status new_status))

/-- Successful outcomes of `StatusService.resolve_report_with_evidence`:
`alreadyResolved` is the "Report is already resolved" early success
(status_service.py lines 150-156), `resolved old` the normal path. -/
inductive ResolveEvidenceResult where
  | alreadyResolved
  | resolved (oldStatus : String)
  deriving Repr, DecidableEq

/-- Embeds `StatusService.resolve_report_with_evidence` (status_service.py lines
129-196): sets `status = "resolved"`, stamps `resolved_at`, appends one
history row (note defaulted at line 168) plus one JSON history entry (raw
note, line 173), and commits. -/
def resolve_report_with_evidence (db : DB) (changed_by : String)
    (notes : Option String) (now : Nat) : DB × Except StatusError ResolveEvidenceResult :=
  match db.report with
  | none => (db, .error .notFound)
  | some report =>
    if report.status = "resolved" then (db, .ok .alreadyResolved)
    else
      let r1 : Report :=
        { report with
          status := "resolved"
          resolved_at := some now
          status_history := report.status_history ++ [⟨"resolved", changed_by, now, notes⟩] }
      ({ db with
          report := some r1
          histRows := db.histRows ++
            [⟨"resolved", changed_by, now,
              some (notes.getD "Report resolved with geo-verified evidence")⟩] },
       .ok (.resolved report.status))

/-- Errors of the `delete_citizen_report` endpoint (main.py lines
1539-1583): `notFound` covers both a missing row and an ownership
mismatch (the query filters on `reporter_id`, line 1549-1552);
`alreadyDeleted` is the 400 at line 1560-1564. -/
inductive DeleteError where
  | notFound
  | alreadyDeleted
  deriving Repr, DecidableEq

/-- Embeds `delete_citizen_report` (main.py lines 1539-1583): soft-deletes the
report, forcing `status = "deleted"`. The source checks only
`report.is_deleted`; it does not inspect `report.status`. -/
def delete_citizen_report (db : DB) (requester_id reason : String)
    (now : Nat) : DB × Except DeleteError Unit :=
  match db.report with
  | none => (db, .error .notFound)
  | some report =>
    if report.reporter_id ≠ requester_id then (db, .error .notFound)
    else if report.is_deleted then (db, .error .alreadyDeleted)
    else
      ({ db with
          report := some
            { report with
              is_deleted := true
              deletion_reason := some reason
              deleted_at := some now
              status := "deleted" } },
       .ok ())

/-- The inputs `create_report` reads off `ReportCreate` plus the extra
arguments of `report_service.create_report`. -/
structure ReportCreateData where
  title : String
  category : String
  latitude : ℝ
  longitude : ℝ
  reporter_id : String

/-- Embeds `report_service.create_report` (report_service.py lines 43-72): the
freshly inserted `Report` row. Note line 62: `status="pending"`. -/
def create_report (data : ReportCreateData) (id : Nat) (now : Nat) : Report :=
  { id := id
    title := data.title
    category := data.category
    latitude := data.latitude
    longitude := data.longitude
    urgency_score := 50
    urgency_label := "Medium"
    status := "pending"
    reporter_id := data.reporter_id
    admin_notes := none
    status_history := []
    is_deleted := false
    deletion_reason := none
    deleted_at := none
    resolved_by := none
    resolved_at := none
    resolution_image_url := none
    resolution_coordinates := none
    reported_at := now
    acknowledged_at := none
    in_progress_at := none }

/-! ### GeoDistance: `ResolutionService.calculate_distance` -/

/-- Embeds `math.radians`: degrees to radians. -/
noncomputable def radians (x : ℝ) : ℝ := x * Real.pi / 180

/-- The Haversine `a` term of `ResolutionService.calculate_distance`
(resolution_service.py lines 41-53). -/
noncomputable def haversine_a (lat1 lon1 lat2 lon2 : ℝ) : ℝ :=
  let lat1_rad := radians lat1
  let lon1_rad := radians lon1
  let lat2_rad := radians lat2
  let lon2_rad := radians lon2
  let dlat := lat2_rad - lat1_rad
  let dlon := lon2_rad - lon1_rad
  Real.sin (dlat / 2) ^ 2 +
    Real.cos lat1_rad * Real.cos lat2_rad * Real.sin (dlon / 2) ^ 2

/-- The clamp of the `a` term to `[0, 1]` (resolution_service.py lines
55-59). -/
noncomputable def clamp01 (a : ℝ) : ℝ :=
  if 1 < a then 1 else if a < 0 then 0 else a

/-- Embeds `ResolutionService.calculate_distance` (resolution_service.py lines
27-73): Haversine distance in meters on a sphere of radius 6371000 m,
with Python's `float('inf')` sentinel for out-of-range inputs rendered
as `⊤ : EReal`. -/
noncomputable def calculate_distance (lat1 lon1 lat2 lon2 : ℝ) : EReal :=
  if ¬((-90 ≤ lat1 ∧ lat1 ≤ 90) ∧ (-90 ≤ lat2 ∧ lat2 ≤ 90)) then ⊤
  else if ¬((-180 ≤ lon1 ∧ lon1 ≤ 180) ∧ (-180 ≤ lon2 ∧ lon2 ≤ 180)) then ⊤
  else
    ((6371000 * (2 * Real.arcsin (Real.sqrt (clamp01 (haversine_a lat1 lon1 lat2 lon2)))) :
      ℝ) : EReal)

/-- Embeds `ResolutionService.max_distance_meters` (resolution_service.py line 25). -/
def max_distance_meters : ℝ := 30

/-- Embeds `ResolutionService.verify_resolution_location` (resolution_service.py
lines 75-96), generic in the distance function the service computes with
(the source calls `self.calculate_distance`). -/
noncomputable def verify_resolution_location (dist : ℝ → ℝ → ℝ → ℝ → EReal)
    (original_lat original_lon resolution_lat resolution_lon : ℝ) : Bool × EReal :=
  let distance := dist original_lat original_lon resolution_lat resolution_lon
  (decide (distance ≤ ((max_distance_meters : ℝ) : EReal)), distance)

/-! ### ResolutionVerifier: `ResolutionService.resolve_report` -/

/-- Typed rendering of the `HTTPException`s `ResolutionService.resolve_report`
raises, named after the spec's taxonomy:
- `notFound`: 404 "Report not found" (line 121)
- `alreadyResolved`: 400 "Report is already resolved" (line 125)
- `verificationRequired`: 403 "Face verification required ..." (lines 142-145)
- `missingLocationEvidence`: 400 "Evidence image must include EXIF GPS data ..." (lines 162-165)
- `locationTooFar`: 400 "Evidence location too far ..." (lines 178-183)
- `internalError`: the generic 500 raised after rollback by the
  catch-all handler (lines 249-255). -/
inductive ResolveError where
  | notFound
  | alreadyResolved
  | verificationRequired
  | missingLocationEvidence
  | locationTooFar (distance : EReal)
  | internalError

/-- The fields of the success dictionary returned by
`ResolutionService.resolve_report` (lines 233-245) that the embedding
tracks. -/
structure ResolveOutput where
  resolution_coordinates : ResolutionCoordinates
  distance_meters : EReal
  resolution_image_url : String
  status_update : ResolveEvidenceResult
  admin_verification_image_url : Option String

/-- Python's `round(x, 2)` applied to the (finite, by the time it is
rounded) verified distance. -/
noncomputable def round2 (d : EReal) : EReal :=
  (((round (100 * d.toReal) : ℤ) : ℝ) / 100 : ℝ)

/-- Embeds `ResolutionService.resolve_report` (resolution_service.py lines 98-255).

Collaborators appear as parameters:
- `dist` — the distance function (the source calls `self.calculate_distance`
  through `verify_resolution_location`);
- `gps` — the outcome of `extract_gps_from_image` on the evidence image:
  the source catches extraction exceptions and treats them as no data
  (lines 153-158), so both collapse to `none`;
- `uploadUrl` — the URL `upload_image_to_storage` returns (storage_service
  never raises: it falls back to a placeholder URL);
- `adminVerifImage` — `none` when no secondary verification image was
  supplied; `some (.error ())` when reading its bytes raises;
  `some (.ok url)` with the URL `upload_admin_verification_image` returns
  (`""` when saving failed, in which case line 219's truthiness check
  skips persisting the `AdminVerification` row);
- `faceRequired` — the `FACE_VERIFICATION_REQUIRED` environment flag;
- `faceVerified` — whether the `FaceVerification` query at lines 133-137
  finds a verified record for this report/admin pair;
- `provided_lat`, `provided_lon` — the optional fallback form coordinates.

Session semantics: `resolve_report_with_evidence` commits on its own
(status_service.py line 176), so its output database is both committed
and current; the resolution-field writes at lines 204-208 stay pending in
the session until the final commit at line 228. When reading the
verification image raises, the catch-all handler rolls the session back
(line 250), discarding exactly the pending writes; the database visible to
callers is then the one `resolve_report_with_evidence` committed. -/
noncomputable def resolve_report (dist : ℝ → ℝ → ℝ → ℝ → EReal) (db : DB)
    (admin_id : String) (gps : Option (ℝ × ℝ)) (uploadUrl : String)
    (adminVerifImage : Option (Except Unit String))
    (faceRequired faceVerified : Bool) (admin_notes : Option String)
    (provided_lat provided_lon : Option ℝ) (now : Nat) :
    DB × Except ResolveError ResolveOutput :=
  match db.report with
  | none => (db, .error .notFound)
  | some report =>
    if report.status = "resolved" then (db, .error .alreadyResolved)
    else if faceRequired ∧ ¬faceVerified then (db, .error .verificationRequired)
    else
      match gps with
      | none => (db, .error .missingLocationEvidence)
      | some (resolution_lat, resolution_lon) =>
        let vr := verify_resolution_location dist report.latitude report.longitude
          resolution_lat resolution_lon
        if ¬vr.1 then (db, .error (.locationTooFar vr.2))
        else
          let resolution_coords : ResolutionCoordinates :=
            { latitude := resolution_lat
              longitude := resolution_lon
              distance_from_original_meters := round2 vr.2
              coordinate_source := "EXIF from image" }
          let committed := resolve_report_with_evidence db admin_id
            (some "Resolved with geo-verified evidence.") now
          let db1 := committed.1
          let pending : Report → Report := fun rep =>
            { rep with
              resolved_by := some admin_id
              resolved_at := some now
              resolution_image_url := some uploadUrl
              resolution_coordinates := some resolution_coords
              admin_notes := admin_notes }
          match adminVerifImage with
          | none =>
            ({ db1 with report := db1.report.map pending },
             .ok { resolution_coordinates := resolution_coords
                   distance_meters := round2 vr.2
                   resolution_image_url := uploadUrl
                   status_update := (committed.2.toOption.getD .alreadyResolved)
                   admin_verification_image_url := none })
          | some (.error _) => (db1, .error .internalError)
          | some (.ok verifUrl) =>
            let db2 := { db1 with report := db1.report.map pending }
            let db3 :=
              if verifUrl ≠ "" then
                { db2 with verifications := db2.verifications ++ [⟨admin_id, verifUrl⟩] }
              else db2
            (db3,
             .ok { resolution_coordinates := resolution_coords
                   distance_meters := round2 vr.2
                   resolution_image_url := uploadUrl
                   status_update := (committed.2.toOption.getD .alreadyResolved)
                   admin_verification_image_url := some verifUrl })

/-! ### DuplicateDetector: the duplicate scan inside `create_issue_report`
(main.py lines 236-286) -/

/-- The statuses the duplicate scan considers active (main.py line 239). -/
def active_statuses : List String := ["reported", "acknowledged", "in_progress"]

/-- The candidate filter of the scan's database query (main.py lines
240-243): not soft-deleted and in an active status. -/
def isActive (r : Report) : Prop := r.is_deleted = false ∧ r.status ∈ active_statuses

instance (r : Report) : Decidable (isActive r) := by
  unfold isActive; infer_instance

/-- Category normalisation `(category or "").strip().lower()`
(main.py lines 249, 253). -/
def normalizeCat (s : String) : String := s.trim.toLower

/-- The scan loop of main.py lines 245-264: fold over the candidates,
keeping the strictly nearest same-category report within
`30.0` meters; `nearest_distance` starts at `float('inf')` (`⊤`). -/
noncomputable def dupFold (dist : ℝ → ℝ → ℝ → ℝ → EReal) (newCat : String)
    (newLat newLon : ℝ) : List Report → Option Report × EReal → Option Report × EReal
  | [], acc => acc
  | r :: rs, (nearest, nearest_distance) =>
    if normalizeCat r.category = normalizeCat newCat then
      let d := dist r.latitude r.longitude newLat newLon
      if d ≤ ((30 : ℝ) : EReal) ∧ d < nearest_distance then
        dupFold dist newCat newLat newLon rs (some r, d)
      else dupFold dist newCat newLat newLon rs (nearest, nearest_distance)
    else dupFold dist newCat newLat newLon rs (nearest, nearest_distance)

/-- The whole duplicate scan (main.py lines 238-264): the active filter
applied by the query, then the nearest-within-threshold fold. -/
noncomputable def duplicateScan (dist : ℝ → ℝ → ℝ → ℝ → EReal) (newCat : String)
    (newLat newLon : ℝ) (reports : List Report) : Option Report :=
  (dupFold dist newCat newLat newLon (reports.filter (fun r => decide (isActive r)))
    (none, ⊤)).1

/-- The `existing_report` summary returned on a duplicate hit
(main.py lines 271-284); the upvote and comment counts come from two
further queries (lines 268-269), supplied here as parameters. -/
structure ExistingReportSummary where
  id : Nat
  title : String
  category : String
  status : String
  latitude : ℝ
  longitude : ℝ
  upvotes : Nat
  comments : Nat

/-- Builds the duplicate-hit summary for a report. -/
def summaryOf (r : Report) (upvotes comments : Nat) : ExistingReportSummary :=
  { id := r.id, title := r.title, category := r.category, status := r.status
    latitude := r.latitude, longitude := r.longitude
    upvotes := upvotes, comments := comments }

/-- The two outcomes of `create_issue_report` relevant to the duplicate
check: short-circuit with the existing report's summary, or proceed and
insert a fresh row. -/
inductive CreateResult where
  | duplicate (summary : ExistingReportSummary)
  | created (report : Report)

/-- The duplicate-check-and-create portion of `create_issue_report`
(main.py lines 236-286 plus the `create_report` call at line 360).
The whole scan sits in a `try` block whose handler logs and falls
through to creation (lines 285-286): `queryResult` is the candidate
query's outcome, and on `.error` the scan is skipped and creation
proceeds. The image upload, AI summarisation and urgency classification
between the scan and the insert are collaborators whose outputs feed
`data`. -/
noncomputable def create_issue_report (dist : ℝ → ℝ → ℝ → ℝ → EReal)
    (queryResult : Except Unit (List Report)) (category : String)
    (final_latitude final_longitude : ℝ) (upvotes comments : Nat)
    (data : ReportCreateData) (newId now : Nat) : CreateResult :=
  match queryResult with
  | .error _ => .created (create_report data newId now)
  | .ok reports =>
    match duplicateScan dist category final_latitude final_longitude reports with
    | some nearest => .duplicate (summaryOf nearest upvotes comments)
    | none => .created (create_report data newId now)

/-! ### Helper lemmas about `update_report_status` -/

theorem indexOf?_eq_none_of_not_mem {s : String} {l : List String} (h : s ∉ l) :
    List.indexOf? s l = none := by
  rw [List.indexOf?_eq_none_iff]
  intro x hx hbeq
  exact h (beq_iff_eq.mp hbeq ▸ hx)

theorem update_noop {db : DB} {r : Report} {new cb : String} {notes : Option String}
    {now : Nat} (hdb : db.report = some r) (hnew : new ∈ valid_statuses)
    (hcn : r.status = new) :
    update_report_status db new cb notes now = (db, .ok (.noop new)) := by
  simp only [update_report_status, hdb]
  rw [if_neg (not_not_intro hnew), if_pos hcn]

theorem update_locked {db : DB} {r : Report} {new cb : String} {notes : Option String}
    {now : Nat} (hdb : db.report = some r) (hnew : new ∈ valid_statuses)
    (hne : r.status ≠ new) (hres : r.status = "resolved") :
    update_report_status db new cb notes now = (db, .error .lockedAfterResolution) := by
  have hnr : new ≠ "resolved" := fun h => hne (hres.trans h.symm)
  simp only [update_report_status, hdb]
  rw [if_neg (not_not_intro hnew), if_neg hne, if_pos ⟨hres, hnr⟩]

theorem update_skipped {db : DB} {r : Report} {new cb : String} {notes : Option String}
    {now : Nat} {i j : Nat} (hdb : db.report = some r) (hnew : new ∈ valid_statuses)
    (hne : r.status ≠ new) (hnres : r.status ≠ "resolved")
    (hi : List.indexOf? r.status valid_statuses = some i)
    (hj : List.indexOf? new valid_statuses = some j) (hskip : i + 1 < j) :
    update_report_status db new cb notes now = (db, .error .skippedStage) := by
  simp only [update_report_status, hdb, stageSkipCheck, hi, hj]
  rw [if_neg (not_not_intro hnew), if_neg hne,
    if_neg (fun h : r.status = "resolved" ∧ new ≠ "resolved" => hnres h.1), if_pos hskip]

theorem update_requires_evidence {db : DB} {r : Report} {cb : String}
    {notes : Option String} {now : Nat} {i j : Nat} (hdb : db.report = some r)
    (hne : r.status ≠ "resolved")
    (hi : List.indexOf? r.status valid_statuses = some i)
    (hj : List.indexOf? "resolved" valid_statuses = some j) (hskip : ¬ i + 1 < j) :
    update_report_status db "resolved" cb notes now =
      (db, .error .resolutionRequiresEvidence) := by
  simp only [update_report_status, hdb, stageSkipCheck, hi, hj]
  rw [if_neg (not_not_intro (by decide : "resolved" ∈ valid_statuses)), if_neg hne,
    if_neg (fun h : r.status = "resolved" ∧ "resolved" ≠ "resolved" => hne h.1),
    if_neg hskip]
  rw [if_pos]
  exact ⟨trivial, hne⟩

/-- The accepted branch of `update_report_status` (status_service.py lines
78-122): the committed database after a successful generic transition. -/
def acceptedState (db : DB) (r : Report) (new cb : String) (notes : Option String)
    (now : Nat) : DB :=
  { db with
    report := some
      { r with
        status := new
        acknowledged_at := if new = "acknowledged" then some now else r.acknowledged_at
        in_progress_at := if new = "in_progress" then some now else r.in_progress_at
        resolved_at := if new = "resolved" then some now else r.resolved_at
        status_history := r.status_history ++ [⟨new, cb, now, notes⟩] }
    histRows := db.histRows ++ [⟨new, cb, now, notes⟩] }

theorem update_accepted_of_skip_ok {db : DB} {r : Report} {new cb : String}
    {notes : Option String} {now : Nat} (hdb : db.report = some r)
    (hnew : new ∈ valid_statuses) (hne : r.status ≠ new) (hnres : r.status ≠ "resolved")
    (hnewres : new ≠ "resolved")
    (hskip : stageSkipCheck r.status new = .ok ()) :
    update_report_status db new cb notes now =
      (acceptedState db r new cb notes now, .ok (.updated r.status new)) := by
  simp only [update_report_status, hdb, hskip]
  rw [if_neg (not_not_intro hnew), if_neg hne,
    if_neg (fun h : r.status = "resolved" ∧ new ≠ "resolved" => hnres h.1),
    if_neg (fun h : new = "resolved" ∧ r.status ≠ "resolved" => hnewres h.1)]
  rfl

theorem update_accepted {db : DB} {r : Report} {new cb : String}
    {notes : Option String} {now : Nat} {i j : Nat} (hdb : db.report = some r)
    (hnew : new ∈ valid_statuses) (hne : r.status ≠ new) (hnres : r.status ≠ "resolved")
    (hnewres : new ≠ "resolved")
    (hi : List.indexOf? r.status valid_statuses = some i)
    (hj : List.indexOf? new valid_statuses = some j) (hskip : ¬ i + 1 < j) :
    update_report_status db new cb notes now =
      (acceptedState db r new cb notes now, .ok (.updated r.status new)) := by
  refine update_accepted_of_skip_ok hdb hnew hne hnres hnewres ?_
  simp only [stageSkipCheck, hi, hj, if_neg hskip]

/-! ### Concrete fixtures -/

/-- A concrete report row used to evaluate the embedded operations. -/
def baseReport : Report :=
  { id := 1
    title := "Broken streetlight"
    category := "Pothole"
    latitude := 0
    longitude := 0
    urgency_score := 50
    urgency_label := "Medium"
    status := "reported"
    reporter_id := "citizen1"
    admin_notes := none
    status_history := []
    is_deleted := false
    deletion_reason := none
    deleted_at := none
    resolved_by := none
    resolved_at := none
    resolution_image_url := none
    resolution_coordinates := none
    reported_at := 0
    acknowledged_at := none
    in_progress_at := none }

/-- A resolved, not-yet-deleted report. -/
def resolvedReport : Report := { baseReport with status := "resolved", resolved_at := some 2 }

def dbResolved : DB := ⟨some resolvedReport, [], []⟩

def dbReported : DB := ⟨some baseReport, [], []⟩

/-- A report in the freshly-created `"pending"` status. -/
def pendingReport : Report := { baseReport with status := "pending" }

def dbPending : DB := ⟨some pendingReport, [], []⟩

/-- A `"reported"` report that has already been through `"acknowledged"`
once: its `acknowledged_at` stamp is set (to clock value 5). -/
def restampReport : Report := { baseReport with acknowledged_at := some 5 }

def dbRestamp : DB := ⟨some restampReport, [], []⟩

/-! ### C4 -/

/-- C4: the claim states that every operation creating or mutating a
report leaves `status` inside {reported, acknowledged, in_progress,
resolved, deleted}. The code violates it at creation:
`report_service.create_report` sets `status = "pending"`, which lies
outside the five-value domain documented on the model's status field.
This theorem evaluates the embedded `create_report` on every input. -/
theorem C4_created_status_outside_domain (data : ReportCreateData) (id now : Nat) :
    (create_report data id now).status = "pending" ∧ "pending" ∉ model_status_domain :=
  ⟨rfl, by decide⟩

/-! ### C5 -/

/-- C5: the claim states that an accepted transition into a stage whose
timestamp is already non-null leaves that timestamp unchanged. The code
violates it: `update_report_status` stamps the stage timestamp on every
write (status_service.py lines 83-89). Evaluated at the failing input: a
`"reported"` report whose `acknowledged_at` is already `some 5` is moved
to `"acknowledged"` at clock 9, and the code overwrites the stamp with
`some 9`. -/
theorem C5_timestamp_restamped_on_reentry :
    (update_report_status dbRestamp "acknowledged" "admin1" none 9).2
        = .ok (.updated "reported" "acknowledged")
    ∧ (update_report_status dbRestamp "acknowledged" "admin1" none 9).1.report.map
        Report.acknowledged_at = some (some 9) :=
  ⟨rfl, rfl⟩

/-! ### C9 -/

/-- C9: when the current status is not one of the four ordered lifecycle
statuses (e.g. the `"pending"` status `create_report` assigns),
`update_report_status` performs no stage-skip validation: any valid
target other than `"resolved"` is accepted, updating the status and
appending one history entry. -/
theorem C9_no_skip_validation_outside_lifecycle (db : DB) (r : Report) (new cb : String)
    (notes : Option String) (now : Nat) (hdb : db.report = some r)
    (hcur : r.status ∉ valid_statuses) (hnew : new ∈ valid_statuses)
    (hnres : new ≠ "resolved") :
    update_report_status db new cb notes now =
      (acceptedState db r new cb notes now, .ok (.updated r.status new)) := by
  have hne : r.status ≠ new := fun h => hcur (h ▸ hnew)
  have hnres' : r.status ≠ "resolved" :=
    fun h => hcur (h ▸ (by decide : "resolved" ∈ valid_statuses))
  refine update_accepted_of_skip_ok hdb hnew hne hnres' hnres ?_
  simp only [stageSkipCheck, indexOf?_eq_none_of_not_mem hcur]

/-- Witness for C9: a `"pending"` report jumps directly to
`"in_progress"` (two stages ahead of `"reported"`), and the transition is
accepted. -/
theorem C9_witness :
    update_report_status dbPending "in_progress" "admin1" none 7 =
      (acceptedState dbPending pendingReport "in_progress" "admin1" none 7,
       .ok (.updated "pending" "in_progress")) :=
  C9_no_skip_validation_outside_lifecycle dbPending pendingReport "in_progress" "admin1"
    none 7 rfl (by decide) (by decide) (by decide)

/-! ### C2 -/

/-- C2 counterexample: the claim says every request that is "forward by
exactly one stage, or any backward move" is accepted for reports whose
current status is in the ordered list. From `"resolved"`, the backward
move to `"in_progress"` is instead rejected with the lock error
(status_service.py lines 54-56). -/
theorem C2_counterexample_backward_from_resolved :
    update_report_status dbResolved "in_progress" "admin1" none 3
      = (dbResolved, .error .lockedAfterResolution) := rfl

/-- C2 amended: for a report whose current status has index `i` in the
ordered list and a requested valid target with index `j`,
`update_report_status` decides by the first applicable rule:
same status → no-op success; current status `resolved` →
`LockedAfterResolutionError`; `j > i + 1` → `SkippedStageError`;
target `resolved` → `ResolutionRequiresEvidenceError`; otherwise
accepted, updating the status and appending one history entry. -/
theorem C2_amended_transition_table (db : DB) (r : Report) (new cb : String)
    (notes : Option String) (now i j : Nat) (hdb : db.report = some r)
    (hcur : r.status ∈ valid_statuses) (hnew : new ∈ valid_statuses)
    (hi : List.indexOf? r.status valid_statuses = some i)
    (hj : List.indexOf? new valid_statuses = some j) :
    (r.status = new → update_report_status db new cb notes now = (db, .ok (.noop new)))
    ∧ (r.status ≠ new → r.status = "resolved" →
        update_report_status db new cb notes now = (db, .error .lockedAfterResolution))
    ∧ (r.status ≠ new → r.status ≠ "resolved" → i + 1 < j →
        update_report_status db new cb notes now = (db, .error .skippedStage))
    ∧ (r.status ≠ new → r.status ≠ "resolved" → ¬i + 1 < j → new = "resolved" →
        update_report_status db new cb notes now = (db, .error .resolutionRequiresEvidence))
    ∧ (r.status ≠ new → r.status ≠ "resolved" → ¬i + 1 < j → new ≠ "resolved" →
        update_report_status db new cb notes now =
          (acceptedState db r new cb notes now, .ok (.updated r.status new))) := by
  refine ⟨fun h => update_noop hdb hnew h,
    fun hne hres => update_locked hdb hnew hne hres,
    fun hne hnres hs => update_skipped hdb hnew hne hnres hi hj hs,
    fun hne hnres hs hr => ?_,
    fun hne hnres hs hnr => update_accepted hdb hnew hne hnres hnr hi hj hs⟩
  subst hr
  exact update_requires_evidence hdb hnres hi hj hs

/-- Witness for C2 (amended): `"reported"` → `"in_progress"` skips the
`"acknowledged"` stage and is rejected with `SkippedStageError`. -/
theorem C2_amended_witness :
    update_report_status dbReported "in_progress" "admin1" none 3
      = (dbReported, .error .skippedStage) :=
  (C2_amended_transition_table dbReported baseReport "in_progress" "admin1" none 3 0 2
    rfl (by decide) (by decide) rfl rfl).2.2.1 (by decide) (by decide) (by decide)

/-! ### C3 -/

/-- C3 counterexample: the claim says that once a report is resolved,
every status-update attempt (any target) is rejected with
`LockedAfterResolutionError` and citizen deletion cannot move it to
`deleted`. In the code, a status update targeting `"resolved"` is a
success no-op rather than a rejection, and `delete_citizen_report` does
not check for resolved status: it soft-deletes the report and forces
`status = "deleted"`. -/
theorem C3_counterexample_resolved_report_mutable :
    update_report_status dbResolved "resolved" "admin1" none 3
        = (dbResolved, .ok (.noop "resolved"))
    ∧ (delete_citizen_report dbResolved "citizen1" "no longer needed" 4).2 = .ok ()
    ∧ (delete_citizen_report dbResolved "citizen1" "no longer needed" 4).1.report.map
        Report.status = some "deleted" :=
  ⟨rfl, rfl, rfl⟩

/-- C3 amended: once a report is resolved, `update_report_status` never
changes it — a request for any other valid status is rejected with
`LockedAfterResolutionError`, and a request for `"resolved"` is a no-op
success; a second resolve attempt through `ResolutionService` is
rejected with `AlreadyResolvedError`; but the citizen deletion operation
is not blocked by resolution: on a resolved, not-yet-deleted report owned
by the requester it succeeds and forces `status = "deleted"`. -/
theorem C3_amended_resolution_lock (db : DB) (r : Report) (cb reason : String)
    (notes : Option String) (now : Nat) (hdb : db.report = some r)
    (hres : r.status = "resolved") :
    (∀ new ∈ valid_statuses, new ≠ "resolved" →
       update_report_status db new cb notes now = (db, .error .lockedAfterResolution))
    ∧ update_report_status db "resolved" cb notes now = (db, .ok (.noop "resolved"))
    ∧ (∀ dist admin gps uploadUrl adminVerifImage faceRequired faceVerified admin_notes
         pl pl' now',
        resolve_report dist db admin gps uploadUrl adminVerifImage faceRequired
          faceVerified admin_notes pl pl' now' = (db, .error .alreadyResolved))
    ∧ (∀ requester, r.reporter_id = requester → r.is_deleted = false →
        (delete_citizen_report db requester reason now).2 = .ok ()
        ∧ (delete_citizen_report db requester reason now).1.report.map Report.status
            = some "deleted") := by
  refine ⟨fun new hnew hne =>
      update_locked hdb hnew (fun h => hne (h.symm.trans hres)) hres,
    update_noop hdb (by decide) hres, fun dist admin gps u av fr fv an pl pl' now' => ?_,
    fun requester hreq hdel => ?_⟩
  · simp only [resolve_report, hdb]
    rw [if_pos hres]
  · simp only [delete_citizen_report, hdb]
    rw [if_neg (not_not_intro hreq), if_neg (by simp [hdel])]
    exact ⟨rfl, rfl⟩

/-- Witness for C3 (amended): a resolved report rejects the move back to
`"acknowledged"` with the lock error. -/
theorem C3_amended_witness :
    update_report_status dbResolved "acknowledged" "admin1" none 5
      = (dbResolved, .error .lockedAfterResolution) :=
  (C3_amended_resolution_lock dbResolved resolvedReport "admin1" "r" none 5 rfl rfl).1
    "acknowledged" (by decide) (by decide)

/-! ### C10 -/

theorem sin_half_sq_symm (a b : ℝ) :
    Real.sin ((a - b) / 2) ^ 2 = Real.sin ((b - a) / 2) ^ 2 := by
  rw [show (a - b) / 2 = -((b - a) / 2) by ring, Real.sin_neg, neg_sq]

theorem haversine_a_symm (lat1 lon1 lat2 lon2 : ℝ) :
    haversine_a lat1 lon1 lat2 lon2 = haversine_a lat2 lon2 lat1 lon1 := by
  simp only [haversine_a]
  rw [sin_half_sq_symm (radians lat2) (radians lat1),
    sin_half_sq_symm (radians lon2) (radians lon1)]
  ring

/-- C10: `ResolutionService.calculate_distance` is symmetric for all
inputs, including out-of-range ones (where both argument orders take the
infinite-sentinel branch). -/
theorem C10_calculate_distance_symm (lat1 lon1 lat2 lon2 : ℝ) :
    calculate_distance lat1 lon1 lat2 lon2 = calculate_distance lat2 lon2 lat1 lon1 := by
  simp only [calculate_distance, haversine_a_symm lat1 lon1 lat2 lon2]
  exact if_congr (by tauto) rfl (if_congr (by tauto) rfl rfl)

/-! ### C7 -/

/-- C7: the outcome of `ResolutionService.resolve_report` is independent
of the `provided_lat` / `provided_lon` form parameters (the source never
reads them), and when the evidence image carries no EXIF GPS coordinates
the call fails with `MissingLocationEvidenceError` whatever coordinates
were supplied as form fields (given that the earlier checks — report
found, not already resolved, face gate satisfied when required — pass,
which are the checks the source runs before the EXIF check). -/
theorem C7_provided_coordinates_ignored :
    (∀ dist db admin gps uploadUrl adminVerifImage faceRequired faceVerified notes
       p1 p2 q1 q2 now,
       resolve_report dist db admin gps uploadUrl adminVerifImage faceRequired
           faceVerified notes p1 p2 now
         = resolve_report dist db admin gps uploadUrl adminVerifImage faceRequired
           faceVerified notes q1 q2 now)
    ∧ (∀ dist db (r : Report) admin uploadUrl adminVerifImage faceRequired faceVerified
         notes p1 p2 now, db.report = some r → r.status ≠ "resolved" →
         (faceRequired = true → faceVerified = true) →
         resolve_report dist db admin none uploadUrl adminVerifImage faceRequired
             faceVerified notes p1 p2 now
           = (db, .error .missingLocationEvidence)) := by
  constructor
  · intro dist db admin gps u av fr fv notes p1 p2 q1 q2 now
    rfl
  · intro dist db r admin u av fr fv notes p1 p2 now hdb hnres hgate
    simp only [resolve_report, hdb]
    rw [if_neg hnres, if_neg (fun h => h.2 (hgate h.1))]

/-- Witness for C7: a report in `"in_progress"` status, no EXIF GPS in
the evidence image, face gate off, valid-looking form coordinates
supplied — the call still fails with the missing-evidence error. -/
theorem C7_witness :
    resolve_report (fun _ _ _ _ => (⊤ : EReal)) dbReported "admin1" none "u" none
        false false none (some 12) (some 77) 9
      = (dbReported, .error .missingLocationEvidence) :=
  C7_provided_coordinates_ignored.2 (fun _ _ _ _ => (⊤ : EReal)) dbReported baseReport
    "admin1" "u" none false false none (some 12) (some 77) 9 rfl (by decide) (by decide)

/-! ### C1 -/

/-- An in-progress report (the normal state a report is resolved from). -/
def inProgressReport : Report :=
  { baseReport with
    status := "in_progress"
    acknowledged_at := some 1
    in_progress_at := some 2 }

def dbInProgress : DB := ⟨some inProgressReport, [], []⟩

/-- A distance collaborator whose measured distance is 0 meters (the
evidence was taken at the report location). -/
noncomputable def constDist : ℝ → ℝ → ℝ → ℝ → EReal := fun _ _ _ _ => ((0 : ℝ) : EReal)

/-- The resolve call of the C1 failing input: valid EXIF GPS, distance 0,
face gate off, and a secondary admin-verification image whose read
raises. -/
noncomputable def c1ResolveCall : DB × Except ResolveError ResolveOutput :=
  resolve_report constDist dbInProgress "admin1" (some (0, 0)) "http://x/evidence.jpg"
    (some (.error ())) false false none none none 9

/-- C1: the claim states that any failure after the precondition checks
aborts with no partial state change: the status and the resolution fields
change together or not at all. The code violates it:
`resolve_report_with_evidence` commits the status change, `resolved_at`
stamp and history row on its own (status_service.py line 176) before the
resolution fields are written, so when reading the secondary
admin-verification image raises afterwards, the rollback discards only
the pending field writes. This theorem evaluates the embedded code at the
failing input: the call errors, yet the committed report has
`status = "resolved"` and `resolved_at` set while `resolved_by` and
`resolution_image_url` remain empty. -/
theorem C1_partial_commit_on_verification_failure :
    c1ResolveCall.2 = .error .internalError
    ∧ c1ResolveCall.1.report.map Report.status = some "resolved"
    ∧ c1ResolveCall.1.report.map Report.resolved_at = some (some 9)
    ∧ c1ResolveCall.1.report.map Report.resolved_by = some none
    ∧ c1ResolveCall.1.report.map Report.resolution_image_url = some none
    ∧ c1ResolveCall.1.histRows =
        [⟨"resolved", "admin1", 9, some "Resolved with geo-verified evidence."⟩] := by
  have hle : ((0 : ℝ) : EReal) ≤ ((max_distance_meters : ℝ) : EReal) := by
    rw [EReal.coe_le_coe_iff]
    norm_num [max_distance_meters]
  have hcall : c1ResolveCall =
      ({ report := some
           { inProgressReport with
             status := "resolved"
             resolved_at := some 9
             status_history :=
               [⟨"resolved", "admin1", 9, some "Resolved with geo-verified evidence."⟩] }
         histRows := [⟨"resolved", "admin1", 9,
           some "Resolved with geo-verified evidence."⟩]
         verifications := [] }, .error .internalError) := by
    simp only [c1ResolveCall, resolve_report, dbInProgress, verify_resolution_location,
      constDist, resolve_report_with_evidence, decide_eq_true hle]
    norm_num [inProgressReport, baseReport]
    simp
  rw [hcall]
  exact ⟨rfl, rfl, rfl, rfl, rfl, rfl⟩

/-! ### C6: characterisation of the duplicate scan -/

/-- A candidate the scan loop body accepts: same normalised category and
within the 30-meter threshold. -/
def matchOK (dist : ℝ → ℝ → ℝ → ℝ → EReal) (newCat : String) (newLat newLon : ℝ)
    (r : Report) : Prop :=
  normalizeCat r.category = normalizeCat newCat ∧
    dist r.latitude r.longitude newLat newLon ≤ ((30 : ℝ) : EReal)

theorem dupFold_spec (dist : ℝ → ℝ → ℝ → ℝ → EReal) (newCat : String)
    (newLat newLon : ℝ) :
    ∀ (l : List Report) (best : Option Report) (nd : EReal) (best' : Option Report)
      (nd' : EReal),
      dupFold dist newCat newLat newLon l (best, nd) = (best', nd') →
      (∀ b, best = some b → normalizeCat b.category = normalizeCat newCat ∧
        dist b.latitude b.longitude newLat newLon = nd ∧ nd ≤ ((30 : ℝ) : EReal)) →
      (best = none → ∀ d : EReal, d ≤ ((30 : ℝ) : EReal) → d < nd) →
      ((∀ b, best' = some b →
          (b ∈ l ∨ best = some b) ∧ normalizeCat b.category = normalizeCat newCat ∧
          dist b.latitude b.longitude newLat newLon = nd' ∧ nd' ≤ ((30 : ℝ) : EReal) ∧
          nd' ≤ nd ∧
          (∀ r ∈ l, matchOK dist newCat newLat newLon r →
            nd' ≤ dist r.latitude r.longitude newLat newLon))
       ∧ (best' = none → best = none ∧ nd' = nd ∧
          ∀ r ∈ l, ¬matchOK dist newCat newLat newLon r)) := by
  intro l
  induction l with
  | nil =>
    intro best nd best' nd' heq hbest hnone
    simp only [dupFold] at heq
    obtain ⟨rfl, rfl⟩ : best = best' ∧ nd = nd' := by
      constructor <;> [exact congrArg Prod.fst heq; exact congrArg Prod.snd heq]
    refine ⟨fun b hb => ?_, fun hb => ⟨hb, rfl, by simp⟩⟩
    obtain ⟨hcat, hdist, hle⟩ := hbest b hb
    exact ⟨Or.inr hb, hcat, hdist, hle, le_refl _, by simp⟩
  | cons r rs ih =>
    intro best nd best' nd' heq hbest hnone
    by_cases hcat : normalizeCat r.category = normalizeCat newCat
    · by_cases hcond : dist r.latitude r.longitude newLat newLon ≤ ((30 : ℝ) : EReal) ∧
        dist r.latitude r.longitude newLat newLon < nd
      · have heq' : dupFold dist newCat newLat newLon rs
            (some r, dist r.latitude r.longitude newLat newLon) = (best', nd') := by
          simpa only [dupFold, if_pos hcat, if_pos hcond] using heq
        have hbest' : ∀ b, (some r : Option Report) = some b →
            normalizeCat b.category = normalizeCat newCat ∧
            dist b.latitude b.longitude newLat newLon =
              dist r.latitude r.longitude newLat newLon ∧
            dist r.latitude r.longitude newLat newLon ≤ ((30 : ℝ) : EReal) := by
          intro b hb
          obtain rfl : r = b := Option.some_injective _ hb
          exact ⟨hcat, rfl, hcond.1⟩
        obtain ⟨ih1, ih2⟩ := ih (some r) (dist r.latitude r.longitude newLat newLon)
          best' nd' heq' hbest' (fun h => Option.noConfusion h)
        refine ⟨fun b hb => ?_, fun hb => absurd (ih2 hb).1 (by simp)⟩
        obtain ⟨hmem, hbcat, hbdist, hble, hbnd, hmin⟩ := ih1 b hb
        refine ⟨?_, hbcat, hbdist, hble, ?_, ?_⟩
        · rcases hmem with h | h
          · exact Or.inl (List.mem_cons_of_mem _ h)
          · obtain rfl : r = b := Option.some_injective _ h
            exact Or.inl (List.mem_cons_self r rs)
        · exact le_trans hbnd (le_of_lt hcond.2)
        · intro r' hr' hmok
          rcases List.mem_cons.mp hr' with h | h
          · exact h ▸ hbnd
          · exact hmin r' h hmok
      · have heq' : dupFold dist newCat newLat newLon rs (best, nd) = (best', nd') := by
          simpa only [dupFold, if_pos hcat, if_neg hcond] using heq
        obtain ⟨ih1, ih2⟩ := ih best nd best' nd' heq' hbest hnone
        refine ⟨fun b hb => ?_, fun hb => ?_⟩
        · obtain ⟨hmem, hbcat, hbdist, hble, hbnd, hmin⟩ := ih1 b hb
          refine ⟨?_, hbcat, hbdist, hble, hbnd, ?_⟩
          · rcases hmem with h | h
            · exact Or.inl (List.mem_cons_of_mem _ h)
            · exact Or.inr h
          · intro r' hr' hmok
            rcases List.mem_cons.mp hr' with h | h
            · have hle' : dist r.latitude r.longitude newLat newLon ≤ ((30 : ℝ) : EReal) :=
                h ▸ hmok.2
              have hnlt : ¬dist r.latitude r.longitude newLat newLon < nd :=
                fun hlt => hcond ⟨hle', hlt⟩
              exact h ▸ le_trans hbnd (not_lt.mp hnlt)
            · exact hmin r' h hmok
        · obtain ⟨h1, h2, h3⟩ := ih2 hb
          refine ⟨h1, h2, ?_⟩
          intro r' hr' hmok
          rcases List.mem_cons.mp hr' with h | h
          · have hle' : dist r.latitude r.longitude newLat newLon ≤ ((30 : ℝ) : EReal) :=
              h ▸ hmok.2
            exact hcond ⟨hle', hnone h1 _ hle'⟩
          · exact h3 r' h hmok
    · have heq' : dupFold dist newCat newLat newLon rs (best, nd) = (best', nd') := by
        simpa only [dupFold, if_neg hcat] using heq
      obtain ⟨ih1, ih2⟩ := ih best nd best' nd' heq' hbest hnone
      refine ⟨fun b hb => ?_, fun hb => ?_⟩
      · obtain ⟨hmem, hbcat, hbdist, hble, hbnd, hmin⟩ := ih1 b hb
        refine ⟨?_, hbcat, hbdist, hble, hbnd, ?_⟩
        · rcases hmem with h | h
          · exact Or.inl (List.mem_cons_of_mem _ h)
          · exact Or.inr h
        · intro r' hr' hmok
          rcases List.mem_cons.mp hr' with h | h
          · exact absurd (h ▸ hmok.1) hcat
          · exact hmin r' h hmok
      · obtain ⟨h1, h2, h3⟩ := ih2 hb
        refine ⟨h1, h2, ?_⟩
        intro r' hr' hmok
        rcases List.mem_cons.mp hr' with h | h
        · exact absurd (h ▸ hmok.1) hcat
        · exact h3 r' h hmok

theorem duplicateScan_spec (dist : ℝ → ℝ → ℝ → ℝ → EReal) (newCat : String)
    (newLat newLon : ℝ) (reports : List Report) :
    (∀ b, duplicateScan dist newCat newLat newLon reports = some b →
        b ∈ reports ∧ isActive b ∧ normalizeCat b.category = normalizeCat newCat ∧
        dist b.latitude b.longitude newLat newLon ≤ ((30 : ℝ) : EReal) ∧
        (∀ r' ∈ reports, isActive r' → normalizeCat r'.category = normalizeCat newCat →
          dist r'.latitude r'.longitude newLat newLon ≤ ((30 : ℝ) : EReal) →
          dist b.latitude b.longitude newLat newLon ≤
            dist r'.latitude r'.longitude newLat newLon))
    ∧ (duplicateScan dist newCat newLat newLon reports = none →
        ∀ r ∈ reports, isActive r → normalizeCat r.category = normalizeCat newCat →
          ¬dist r.latitude r.longitude newLat newLon ≤ ((30 : ℝ) : EReal)) := by
  rcases hp : dupFold dist newCat newLat newLon
      (reports.filter (fun r => decide (isActive r))) (none, ⊤) with ⟨best', nd'⟩
  have hscan : duplicateScan dist newCat newLat newLon reports = best' := by
    simp only [duplicateScan, hp]
  obtain ⟨h1, h2⟩ := dupFold_spec dist newCat newLat newLon _ none ⊤ best' nd' hp
    (fun b hb => Option.noConfusion hb)
    (fun _ d hd => lt_of_le_of_lt hd (EReal.coe_lt_top 30))
  constructor
  · intro b hb
    rw [hscan] at hb
    obtain ⟨hmem, hbcat, hbdist, hble, -, hmin⟩ := h1 b hb
    have hmem' : b ∈ reports.filter (fun r => decide (isActive r)) := by
      rcases hmem with h | h
      · exact h
      · exact Option.noConfusion h
    rw [List.mem_filter] at hmem'
    refine ⟨hmem'.1, by simpa using hmem'.2, hbcat, by rw [hbdist]; exact hble, ?_⟩
    intro r' hr' hact' hcat' hle'
    rw [hbdist]
    exact hmin r' (List.mem_filter.mpr ⟨hr', by simpa using hact'⟩) ⟨hcat', hle'⟩
  · intro hb r hr hact hcatr hler
    rw [hscan] at hb
    obtain ⟨-, -, h3⟩ := h2 hb
    exact h3 r (List.mem_filter.mpr ⟨hr, by simpa using hact⟩) ⟨hcatr, hler⟩

/-- C6: for every report-creation request, the duplicate check scans
exactly the active reports (status in {reported, acknowledged,
in_progress} and not soft-deleted): when it returns a report, that report
is an active candidate whose category matches case-insensitively, whose
distance is at most 30.0 meters (inclusive boundary), and which is
nearest among all such candidates, and creation is short-circuited with
its summary; when it returns none, no active case-insensitive-match
within 30.0 meters exists (so a candidate at 30.01 m is not a match), and
creation proceeds with a fresh row. Stated for every distance
collaborator `dist`, hence in particular for `calculate_distance`. -/
theorem C6_duplicate_check_nearest_active_within_30m
    (dist : ℝ → ℝ → ℝ → ℝ → EReal) (category : String) (lat lon : ℝ)
    (reports : List Report) (up cm : Nat) (data : ReportCreateData) (id now : Nat) :
    (∀ b, duplicateScan dist category lat lon reports = some b →
        b ∈ reports ∧ isActive b ∧ normalizeCat b.category = normalizeCat category ∧
        dist b.latitude b.longitude lat lon ≤ ((30 : ℝ) : EReal) ∧
        (∀ r' ∈ reports, isActive r' → normalizeCat r'.category = normalizeCat category →
          dist r'.latitude r'.longitude lat lon ≤ ((30 : ℝ) : EReal) →
          dist b.latitude b.longitude lat lon ≤ dist r'.latitude r'.longitude lat lon) ∧
        create_issue_report dist (.ok reports) category lat lon up cm data id now
          = .duplicate (summaryOf b up cm))
    ∧ (duplicateScan dist category lat lon reports = none →
        (∀ r ∈ reports, isActive r → normalizeCat r.category = normalizeCat category →
          ¬dist r.latitude r.longitude lat lon ≤ ((30 : ℝ) : EReal)) ∧
        create_issue_report dist (.ok reports) category lat lon up cm data id now
          = .created (create_report data id now)) := by
  obtain ⟨h1, h2⟩ := duplicateScan_spec dist category lat lon reports
  constructor
  · intro b hb
    obtain ⟨hmem, hact, hcat, hle, hmin⟩ := h1 b hb
    exact ⟨hmem, hact, hcat, hle, hmin, by simp only [create_issue_report, hb]⟩
  · intro hb
    exact ⟨h2 hb, by simp only [create_issue_report, hb]⟩

/-! ### C8 -/

/-- C8: the duplicate detector fails open — when the duplicate scan's
database query raises, `create_issue_report` logs and proceeds with
normal creation, exactly as it would had the scan found no duplicate; a
scan failure never blocks the submission. -/
theorem C8_duplicate_scan_fails_open (dist : ℝ → ℝ → ℝ → ℝ → EReal)
    (category : String) (lat lon : ℝ) (up cm : Nat) (data : ReportCreateData)
    (id now : Nat) (e : Unit) :
    create_issue_report dist (.error e) category lat lon up cm data id now
        = .created (create_report data id now)
    ∧ create_issue_report dist (.error e) category lat lon up cm data id now
        = create_issue_report dist (.ok []) category lat lon up cm data id now :=
  ⟨rfl, rfl⟩

end CrowdCare
